import Mathlib

set_option maxRecDepth 100000

/-!
Verification of the payslip comparison-and-explanation pipeline.

Shallow embedding of the core of the repository: schemas
(`change-record`, `normalized`, `payslip`), the diff engine
(`diff-engine.ts`), the facts generator (`facts-generator.ts`),
payslip utilities (`payslip-utils.ts`) and the pipeline orchestrator
(`pipeline.ts`). Monetary amounts (JS numbers) are modelled as
rationals; JS `Map` values are modelled as association lists with
insertion-order semantics; the stable `Array.prototype.sort` is
modelled by stable insertion sort on the comparator ordering.
-/

namespace Payslips

-- ─────────────────────────────────────────────────────────────
-- schemas/change-record.ts : enums
-- ─────────────────────────────────────────────────────────────

inductive ChangeDirection where
  | increase
  | decrease
  | unchanged
  | added
  | removed
deriving DecidableEq, Repr, Inhabited

inductive ChangeCategory where
  | earning
  | deduction
  | fringe_benefit
  | company_contribution
  | aggregate
  | key_amount
deriving DecidableEq, Repr, Inhabited

inductive ImportanceLevel where
  | high
  | medium
  | low
deriving DecidableEq, Repr, Inhabited

/-- String value of a `ChangeCategory` (zod enum literal), used in record ids. -/
def ChangeCategory.str : ChangeCategory → String
  | .earning => "earning"
  | .deduction => "deduction"
  | .fringe_benefit => "fringe_benefit"
  | .company_contribution => "company_contribution"
  | .aggregate => "aggregate"
  | .key_amount => "key_amount"

-- ─────────────────────────────────────────────────────────────
-- schemas/change-record.ts : helper functions
-- ─────────────────────────────────────────────────────────────

/-- Determine the direction of a change (`getChangeDirection`). -/
def getChangeDirection (oldValue newValue : ℚ) (isAdded isRemoved : Bool) :
    ChangeDirection :=
  if isAdded then .added
  else if isRemoved then .removed
  else if oldValue < newValue then .increase
  else if newValue < oldValue then .decrease
  else .unchanged

/-- Calculate percentage change, `null` (`none`) if `oldValue` is 0
(`calculatePercentChange`). -/
def calculatePercentChange (oldValue newValue : ℚ) : Option ℚ :=
  if oldValue = 0 then none
  else some ((newValue - oldValue) / |oldValue| * 100)

/-- Determine importance based on category and delta magnitude
(`determineImportance`). -/
def determineImportance (category : ChangeCategory) (code : String) (delta : ℚ)
    (direction : ChangeDirection) : ImportanceLevel :=
  if code = "netPay" then .high
  else if code = "PAYE" then .high
  else if code = "paye" then .high
  else if code = "SALARY" then .high
  else if code = "basicSalary" then .high
  else if direction = .added then .medium
  else if direction = .removed then .medium
  else if category = .aggregate then .medium
  else if |delta| < 100 then .low
  else .medium

/-- Modelled from the spec wording of the importance policy: the five key
codes are always high; any added or removed record is medium; any
aggregate-category record is medium; any record with small absolute delta
is low; everything else is medium. -/
def importanceSpecRule (category : ChangeCategory) (code : String) (delta : ℚ)
    (direction : ChangeDirection) : ImportanceLevel :=
  if code = "netPay" ∨ code = "PAYE" ∨ code = "paye" ∨ code = "SALARY" ∨
      code = "basicSalary" then .high
  else if direction = .added ∨ direction = .removed then .medium
  else if category = .aggregate then .medium
  else if |delta| < 100 then .low
  else .medium

-- ─────────────────────────────────────────────────────────────
-- schemas/normalized.ts : normalized data model
-- ─────────────────────────────────────────────────────────────

structure NormalizedLine where
  code : String
  description : String
  amount : ℚ
  taxableAmount : ℚ
  taxDeductibleAmount : ℚ
deriving DecidableEq, Repr, Inhabited

/-- Keys of a JS `Map` modelled as an association list, in insertion
order (`Map.keys()`). -/
def mapKeys {β : Type} (m : List (String × β)) : List String := m.map (·.1)

/-- Lookup by key (`Map.get`): the entry for a key, if present. -/
def mapGet {β : Type} (m : List (String × β)) (k : String) : Option β :=
  (m.find? (fun kv => kv.1 = k)).map (·.2)

/-- Insert or overwrite a binding (`Map.set`): overwriting keeps the
original insertion position, a fresh key is appended. -/
def mapSet {β : Type} (m : List (String × β)) (k : String) (v : β) :
    List (String × β) :=
  if m.any (fun kv => kv.1 = k) then
    m.map (fun kv => if kv.1 = k then (k, v) else kv)
  else
    m ++ [(k, v)]

/-- JS `Map<string, NormalizedLine>` keyed by line code, modelled as an
association list in insertion order. -/
abbrev LineMap := List (String × NormalizedLine)

def lineMapKeys (m : LineMap) : List String := mapKeys m

def lineMapGet (m : LineMap) (code : String) : Option NormalizedLine :=
  mapGet m code

def lineMapSet (m : LineMap) (code : String) (line : NormalizedLine) : LineMap :=
  mapSet m code line

structure Period where
  year : Int
  month : Int
  startDate : String
  endDate : String
deriving DecidableEq, Repr, Inhabited

structure Totals where
  grossEarnings : ℚ
  totalTaxableEarnings : ℚ
  totalDeductions : ℚ
  totalTaxDeductible : ℚ
  totalFringeBenefits : ℚ
  totalCompanyContributions : ℚ
  netPay : ℚ
deriving DecidableEq, Repr, Inhabited

structure KeyAmounts where
  basicSalary : ℚ
  paye : ℚ
  uif : ℚ
  overtime : ℚ
  travel : ℚ
  commission : ℚ
deriving DecidableEq, Repr, Inhabited

structure NormalizedPayslip where
  payslipID : Int
  employeeCode : String
  displayName : String
  period : Period
  taxYear : Int
  earnings : LineMap
  deductions : LineMap
  fringeBenefits : LineMap
  companyContributions : LineMap
  totals : Totals
  keyAmounts : KeyAmounts
deriving DecidableEq, Repr, Inhabited

-- ─────────────────────────────────────────────────────────────
-- schemas/change-record.ts : records and results
-- ─────────────────────────────────────────────────────────────

structure ChangeRecord where
  id : String
  label : String
  category : ChangeCategory
  code : String
  oldValue : ℚ
  newValue : ℚ
  delta : ℚ
  percentChange : Option ℚ
  direction : ChangeDirection
  importance : ImportanceLevel
deriving DecidableEq, Repr, Inhabited

structure PeriodStamp where
  year : Int
  month : Int
deriving DecidableEq, Repr, Inhabited

structure ComparisonSummary where
  totalChanges : Nat
  increases : Nat
  decreases : Nat
  added : Nat
  removed : Nat
  netPayDelta : ℚ
deriving DecidableEq, Repr, Inhabited

structure ComparisonResult where
  previousPeriod : PeriodStamp
  currentPeriod : PeriodStamp
  employeeCode : String
  displayName : String
  changes : List ChangeRecord
  summary : ComparisonSummary
deriving DecidableEq, Repr, Inhabited

-- ─────────────────────────────────────────────────────────────
-- engine/diff-engine.ts : line item comparison
-- ─────────────────────────────────────────────────────────────

/-- First-occurrence deduplication, the iteration order of the JS
`Set([...oldKeys, ...newKeys])` in `compareLineMaps`. -/
def dedupFirst : List String → List String
  | [] => []
  | x :: xs => x :: (dedupFirst xs).filter (fun y => y ≠ x)

/-- The `oldValue` and `newValue` of the line comparison loop:
`map.get(code)?.amount ?? 0`. -/
def lookupAmount (m : LineMap) (code : String) : ℚ :=
  ((lineMapGet m code).map (·.amount)).getD 0

/-- The `isAdded` flag of the line comparison loop: the code is present
only in the current map. -/
def lineIsAdded (oldMap newMap : LineMap) (code : String) : Bool :=
  (lineMapGet oldMap code).isNone && (lineMapGet newMap code).isSome

/-- The `isRemoved` flag of the line comparison loop: the code is present
only in the previous map. -/
def lineIsRemoved (oldMap newMap : LineMap) (code : String) : Bool :=
  (lineMapGet oldMap code).isSome && (lineMapGet newMap code).isNone

/-- The label of a line change: current description, else previous
description, else the code itself. -/
def lineLabel (oldMap newMap : LineMap) (code : String) : String :=
  (((lineMapGet newMap code).map (·.description)).orElse
    (fun _ => (lineMapGet oldMap code).map (·.description))).getD code

/-- Loop body of `compareLineMaps` for one code of the union: the change
record pushed for that code, or `none` when the record is suppressed. -/
def lineChange (category : ChangeCategory) (oldMap newMap : LineMap)
    (code : String) : Option ChangeRecord :=
    let oldValue := lookupAmount oldMap code
    let newValue := lookupAmount newMap code
    let isAdded := lineIsAdded oldMap newMap code
    let isRemoved := lineIsRemoved oldMap newMap code
    if oldValue = 0 ∧ newValue = 0 ∧ isAdded = false ∧ isRemoved = false then
      none
    else
      let delta := newValue - oldValue
      if delta = 0 ∧ isAdded = false ∧ isRemoved = false then
        none
      else
        let direction := getChangeDirection oldValue newValue isAdded isRemoved
        some {
          id := category.str ++ ":" ++ code ++ ":amount"
          label := lineLabel oldMap newMap code
          category := category
          code := code
          oldValue := oldValue
          newValue := newValue
          delta := delta
          percentChange := calculatePercentChange oldValue newValue
          direction := direction
          importance := determineImportance category code delta direction }

/-- Line item comparison over the union of codes (`compareLineMaps`). -/
def compareLineMaps (category : ChangeCategory) (oldMap newMap : LineMap) :
    List ChangeRecord :=
  (dedupFirst (lineMapKeys oldMap ++ lineMapKeys newMap)).filterMap
    (lineChange category oldMap newMap)

-- ─────────────────────────────────────────────────────────────
-- engine/diff-engine.ts : aggregate comparison
-- ─────────────────────────────────────────────────────────────

structure AggregateField where
  code : String
  label : String
  getValue : NormalizedPayslip → ℚ

def AGGREGATE_FIELDS : List AggregateField := [
  ⟨"grossEarnings", "Gross Earnings", fun ps => ps.totals.grossEarnings⟩,
  ⟨"totalTaxableEarnings", "Taxable Earnings",
    fun ps => ps.totals.totalTaxableEarnings⟩,
  ⟨"totalDeductions", "Total Deductions", fun ps => ps.totals.totalDeductions⟩,
  ⟨"netPay", "Net Pay", fun ps => ps.totals.netPay⟩,
  ⟨"totalFringeBenefits", "Fringe Benefits",
    fun ps => ps.totals.totalFringeBenefits⟩,
  ⟨"totalCompanyContributions", "Company Contributions",
    fun ps => ps.totals.totalCompanyContributions⟩]

def KEY_AMOUNT_FIELDS : List AggregateField := [
  ⟨"basicSalary", "Basic Salary", fun ps => ps.keyAmounts.basicSalary⟩,
  ⟨"paye", "PAYE Tax", fun ps => ps.keyAmounts.paye⟩,
  ⟨"uif", "UIF", fun ps => ps.keyAmounts.uif⟩,
  ⟨"overtime", "Overtime", fun ps => ps.keyAmounts.overtime⟩,
  ⟨"travel", "Travel Allowance", fun ps => ps.keyAmounts.travel⟩,
  ⟨"commission", "Commission", fun ps => ps.keyAmounts.commission⟩]

/-- Aggregate comparison over a fixed field list (`compareAggregates`). -/
def compareAggregates (category : ChangeCategory) (fields : List AggregateField)
    (prev curr : NormalizedPayslip) : List ChangeRecord :=
  fields.filterMap fun field =>
    let oldValue := field.getValue prev
    let newValue := field.getValue curr
    let delta := newValue - oldValue
    if delta = 0 then none
    else if oldValue = 0 ∧ newValue = 0 then none
    else
      let direction := getChangeDirection oldValue newValue false false
      some {
        id := category.str ++ ":" ++ field.code
        label := field.label
        category := category
        code := field.code
        oldValue := oldValue
        newValue := newValue
        delta := delta
        percentChange := calculatePercentChange oldValue newValue
        direction := direction
        importance := determineImportance category field.code delta direction }

-- ─────────────────────────────────────────────────────────────
-- engine/diff-engine.ts : main comparison
-- ─────────────────────────────────────────────────────────────

def importanceOrder : ImportanceLevel → Nat
  | .high => 0
  | .medium => 1
  | .low => 2

/-- Ordering used by the `changes.sort` comparator: importance ascending,
then absolute delta descending. `changeSortLE a b` holds exactly when the
JS comparator returns a non-positive number on `(a, b)`. -/
def changeSortLE (a b : ChangeRecord) : Prop :=
  importanceOrder a.importance < importanceOrder b.importance ∨
    (importanceOrder a.importance = importanceOrder b.importance ∧
      |b.delta| ≤ |a.delta|)

instance : DecidableRel changeSortLE := fun a b => by
  unfold changeSortLE
  infer_instance

instance : IsTotal ChangeRecord changeSortLE := by
  constructor
  intro a b
  unfold changeSortLE
  rcases Nat.lt_trichotomy (importanceOrder a.importance)
      (importanceOrder b.importance) with h | h | h
  · exact Or.inl (Or.inl h)
  · rcases le_total |b.delta| |a.delta| with h2 | h2
    · exact Or.inl (Or.inr ⟨h, h2⟩)
    · exact Or.inr (Or.inr ⟨h.symm, h2⟩)
  · exact Or.inr (Or.inl h)

instance : IsTrans ChangeRecord changeSortLE := by
  constructor
  intro a b c hab hbc
  unfold changeSortLE at *
  rcases hab with h1 | ⟨h1, h1d⟩ <;> rcases hbc with h2 | ⟨h2, h2d⟩
  · exact Or.inl (h1.trans h2)
  · exact Or.inl (h2 ▸ h1)
  · exact Or.inl (h1 ▸ h2)
  · exact Or.inr ⟨h1.trans h2, h2d.trans h1d⟩

/-- Skip list for key-amount changes already covered by line items. -/
def skipCodes : List String := ["basicSalary", "paye", "uif", "travel", "commission"]

/-- All change records in source (pre-sort) order: the four line-item
categories, then aggregates, then the non-duplicated key amounts. -/
def collectChanges (previous current : NormalizedPayslip) : List ChangeRecord :=
  compareLineMaps .earning previous.earnings current.earnings ++
  compareLineMaps .deduction previous.deductions current.deductions ++
  compareLineMaps .fringe_benefit previous.fringeBenefits current.fringeBenefits ++
  compareLineMaps .company_contribution previous.companyContributions
    current.companyContributions ++
  compareAggregates .aggregate AGGREGATE_FIELDS previous current ++
  (compareAggregates .key_amount KEY_AMOUNT_FIELDS previous current).filter
    (fun change => !(skipCodes.contains change.code))

/-- Compare two normalized payslips and produce all change records
(`comparePayslips`). The stable JS sort is modelled by stable insertion
sort on the comparator ordering. -/
def comparePayslips (previous current : NormalizedPayslip) : ComparisonResult :=
  let changes := (collectChanges previous current).insertionSort changeSortLE
  { previousPeriod := ⟨previous.period.year, previous.period.month⟩
    currentPeriod := ⟨current.period.year, current.period.month⟩
    employeeCode := current.employeeCode
    displayName := current.displayName
    changes := changes
    summary := {
      totalChanges := changes.length
      increases := (changes.filter (fun c => c.direction == .increase)).length
      decreases := (changes.filter (fun c => c.direction == .decrease)).length
      added := (changes.filter (fun c => c.direction == .added)).length
      removed := (changes.filter (fun c => c.direction == .removed)).length
      netPayDelta := current.totals.netPay - previous.totals.netPay } }

-- ─────────────────────────────────────────────────────────────
-- schemas/fact.ts : facts data model
-- ─────────────────────────────────────────────────────────────

inductive FactType where
  | net_pay_change
  | earning_change
  | earning_added
  | earning_removed
  | deduction_change
  | deduction_added
  | deduction_removed
  | tax_impact
  | causal
  | summary
  | no_change
deriving DecidableEq, Repr, Inhabited

structure FactValues where
  amount : ℚ
  delta : ℚ
  percentChange : Option ℚ
deriving DecidableEq, Repr, Inhabited

structure Fact where
  id : String
  type : FactType
  importance : ImportanceLevel
  sentence : String
  relatedChangeIds : Option (List String)
  values : Option FactValues
deriving DecidableEq, Repr, Inhabited

structure FactsResult where
  periodDescription : String
  employeeName : String
  facts : List Fact
  keyTakeaway : String
deriving DecidableEq, Repr, Inhabited

-- ─────────────────────────────────────────────────────────────
-- engine/facts-generator.ts : formatting helpers
-- ─────────────────────────────────────────────────────────────

def CURRENCY : String := "ZAR"

/-- Render a nonnegative rational with two decimal places, rounding to the
nearest cent. Locale thousands grouping of `toLocaleString` is not
modelled; no claim depends on the rendered digits. -/
def fixedTwo (q : ℚ) : String :=
  let cents := (round (q * 100)).toNat
  let whole := cents / 100
  let frac := cents % 100
  toString whole ++ "." ++ (if frac < 10 then "0" ++ toString frac else toString frac)

def formatCurrency (amount : ℚ) : String :=
  CURRENCY ++ " " ++ fixedTwo |amount|

def formatPercent (percent : ℚ) : String :=
  let tenths := (round (|percent| * 10)).toNat
  toString (tenths / 10) ++ "." ++ toString (tenths % 10) ++ "%"

def monthNames : List String := [
  "January", "February", "March", "April", "May", "June",
  "July", "August", "September", "October", "November", "December"]

def getMonthName (month : Int) : String :=
  if 1 ≤ month ∧ month ≤ 12 then (monthNames.getD (month - 1).toNat "")
  else "Month " ++ toString month

-- ─────────────────────────────────────────────────────────────
-- engine/facts-generator.ts : causal relationship map
-- ─────────────────────────────────────────────────────────────

/-- The fixed directed dependency table `CAUSAL_RULES`. -/
def CAUSAL_RULES : List (String × List String) := [
  ("SALARY", ["grossEarnings", "totalTaxableEarnings"]),
  ("OTIME1_5", ["grossEarnings", "totalTaxableEarnings"]),
  ("OTIME2_0", ["grossEarnings", "totalTaxableEarnings"]),
  ("COMM", ["grossEarnings", "totalTaxableEarnings"]),
  ("TRAVEL", ["grossEarnings", "totalTaxableEarnings"]),
  ("grossEarnings", ["netPay"]),
  ("totalTaxableEarnings", ["PAYE"]),
  ("totalDeductions", ["netPay"]),
  ("PAYE", ["netPay"]),
  ("UIF", ["netPay"]),
  ("ADVANCE", ["netPay"])]

/-- Downstream codes affected by a change (`getAffectedBy`). -/
def getAffectedBy (code : String) : List String :=
  ((CAUSAL_RULES.find? (fun kv => kv.1 = code)).map (·.2)).getD []

-- ─────────────────────────────────────────────────────────────
-- engine/facts-generator.ts : sentence templates
-- ─────────────────────────────────────────────────────────────

def generateNetPaySentence (change : ChangeRecord) : String :=
  let delta := formatCurrency change.delta
  if change.direction = .increase then
    "Your net pay increased by " ++ delta ++ " this month."
  else if change.direction = .decrease then
    "Your net pay decreased by " ++ delta ++ " this month."
  else
    "Your net pay remained the same this month."

/-- Percent suffix of the earning and deduction templates. JS truthiness
on `change.percentChange` treats both `null` and `0` as absent. -/
def percentSuffix (percentChange : Option ℚ) : String :=
  match percentChange with
  | some p => if p = 0 then "" else " (" ++ formatPercent p ++ ")"
  | none => ""

def generateEarningChangeSentence (change : ChangeRecord) : String :=
  let delta := formatCurrency |change.delta|
  let percent := percentSuffix change.percentChange
  if change.direction = .increase then
    change.label ++ " increased by " ++ delta ++ percent ++ "."
  else if change.direction = .decrease then
    change.label ++ " decreased by " ++ delta ++ percent ++ "."
  else if change.direction = .added then
    "You received " ++ change.label ++ " of " ++ formatCurrency change.newValue ++
      " this month."
  else if change.direction = .removed then
    change.label ++ " was not paid this month (previously " ++
      formatCurrency change.oldValue ++ ")."
  else
    change.label ++ " remained unchanged at " ++ formatCurrency change.newValue ++ "."

def generateDeductionChangeSentence (change : ChangeRecord) : String :=
  let delta := formatCurrency |change.delta|
  let percent := percentSuffix change.percentChange
  if change.direction = .increase then
    change.label ++ " increased by " ++ delta ++ percent ++ "."
  else if change.direction = .decrease then
    change.label ++ " decreased by " ++ delta ++ percent ++ "."
  else if change.direction = .added then
    "A new deduction for " ++ change.label ++ " of " ++
      formatCurrency change.newValue ++ " was applied."
  else if change.direction = .removed then
    change.label ++ " deduction was removed (previously " ++
      formatCurrency change.oldValue ++ ")."
  else
    change.label ++ " remained unchanged at " ++ formatCurrency change.newValue ++ "."

def generateTaxImpactSentence (change : ChangeRecord) : String :=
  let delta := formatCurrency |change.delta|
  if change.code = "PAYE" ∧ change.direction = .increase then
    "Your PAYE tax increased by " ++ delta ++ " due to higher taxable earnings."
  else if change.code = "PAYE" ∧ change.direction = .decrease then
    "Your PAYE tax decreased by " ++ delta ++ " due to lower taxable earnings."
  else if change.code = "UIF" ∧ change.direction = .increase then
    "Your UIF contribution increased by " ++ delta ++ "."
  else if change.code = "UIF" ∧ change.direction = .decrease then
    "Your UIF contribution decreased by " ++ delta ++ "."
  else
    generateDeductionChangeSentence change

def generateCausalSentence (cause effect : ChangeRecord) : String :=
  let causeDirection := if cause.direction = .increase then "increased" else "decreased"
  let effectDirection := if effect.direction = .increase then "increased" else "decreased"
  if cause.code = "SALARY" ∧ effect.code = "PAYE" then
    "Because your Basic Salary " ++ causeDirection ++ ", your PAYE tax also " ++
      effectDirection ++ "."
  else if cause.category = .earning ∧ effect.code = "grossEarnings" then
    "Your " ++ cause.label ++
      " change contributed to the overall change in gross earnings."
  else if cause.code = "totalTaxableEarnings" ∧ effect.code = "PAYE" then
    "Your PAYE tax " ++ effectDirection ++ " because your taxable earnings " ++
      causeDirection ++ "."
  else if cause.code = "PAYE" ∧ effect.code = "netPay" then
    let payeAmount := formatCurrency |cause.delta|
    if cause.direction = .increase then
      "The increase in PAYE (" ++ payeAmount ++ ") reduced your net pay."
    else
      "The decrease in PAYE (" ++ payeAmount ++ ") increased your net pay."
  else if cause.code = "ADVANCE" ∧ effect.code = "netPay" then
    "An advance deduction of " ++ formatCurrency cause.newValue ++
      " significantly impacted your net pay."
  else
    "The change in " ++ cause.label ++ " affected your " ++ effect.label ++ "."

-- ─────────────────────────────────────────────────────────────
-- engine/facts-generator.ts : fact generation
-- ─────────────────────────────────────────────────────────────

def changeToFactType (change : ChangeRecord) : FactType :=
  if change.code = "netPay" then .net_pay_change
  else if change.code = "PAYE" ∨ change.code = "UIF" then .tax_impact
  else if change.category = .earning then
    (if change.direction = .added then .earning_added
     else if change.direction = .removed then .earning_removed
     else .earning_change)
  else if change.category = .deduction then
    (if change.direction = .added then .deduction_added
     else if change.direction = .removed then .deduction_removed
     else .deduction_change)
  else .summary

def generateFactFromChange (change : ChangeRecord) : Fact :=
  let type := changeToFactType change
  let sentence :=
    match type with
    | .net_pay_change => generateNetPaySentence change
    | .tax_impact => generateTaxImpactSentence change
    | .earning_change | .earning_added | .earning_removed =>
        generateEarningChangeSentence change
    | .deduction_change | .deduction_added | .deduction_removed =>
        generateDeductionChangeSentence change
    | _ =>
        change.label ++ " changed from " ++ formatCurrency change.oldValue ++
          " to " ++ formatCurrency change.newValue ++ "."
  { id := "fact:" ++ change.id
    type := type
    importance := change.importance
    sentence := sentence
    relatedChangeIds := none
    values := some ⟨change.newValue, change.delta, change.percentChange⟩ }

-- ─────────────────────────────────────────────────────────────
-- engine/facts-generator.ts : causal facts
-- ─────────────────────────────────────────────────────────────

/-- The causal fact built for a cause and effect record pair. -/
def mkCausalFact (cause effect : ChangeRecord) : Fact :=
  { id := "causal:" ++ cause.code ++ "->" ++ effect.code
    type := .causal
    importance := .medium
    sentence := generateCausalSentence cause effect
    relatedChangeIds := some [cause.id, effect.id]
    values := none }

/-- Causal facts inferred from the dependency table
(`generateCausalFacts`). -/
def generateCausalFacts (changes : List ChangeRecord) : List Fact :=
  let changesByCode := changes.foldl (fun m change => mapSet m change.code change) []
  changes.flatMap fun cause =>
    (getAffectedBy cause.code).filterMap fun effectCode =>
      match mapGet changesByCode effectCode with
      | some effect =>
          if effect.direction ≠ .unchanged then some (mkCausalFact cause effect)
          else none
      | none => none

-- ─────────────────────────────────────────────────────────────
-- engine/facts-generator.ts : main generator
-- ─────────────────────────────────────────────────────────────

def typePriority : FactType → Nat
  | .net_pay_change => 0
  | .summary => 1
  | .causal => 2
  | .tax_impact => 3
  | .earning_change => 4
  | .earning_added => 5
  | .earning_removed => 6
  | .deduction_change => 7
  | .deduction_added => 8
  | .deduction_removed => 9
  | .no_change => 10

/-- Ordering used by the facts sort comparator: importance ascending,
then fixed type priority ascending. -/
def factSortLE (a b : Fact) : Prop :=
  importanceOrder a.importance < importanceOrder b.importance ∨
    (importanceOrder a.importance = importanceOrder b.importance ∧
      typePriority a.type ≤ typePriority b.type)

instance : DecidableRel factSortLE := fun a b => by
  unfold factSortLE
  infer_instance

instance : IsTotal Fact factSortLE := by
  constructor
  intro a b
  unfold factSortLE
  rcases Nat.lt_trichotomy (importanceOrder a.importance)
      (importanceOrder b.importance) with h | h | h
  · exact Or.inl (Or.inl h)
  · rcases Nat.le_total (typePriority a.type) (typePriority b.type) with h2 | h2
    · exact Or.inl (Or.inr ⟨h, h2⟩)
    · exact Or.inr (Or.inr ⟨h.symm, h2⟩)
  · exact Or.inr (Or.inl h)

instance : IsTrans Fact factSortLE := by
  constructor
  intro a b c hab hbc
  unfold factSortLE at *
  rcases hab with h1 | ⟨h1, h1d⟩ <;> rcases hbc with h2 | ⟨h2, h2d⟩
  · exact Or.inl (h1.trans h2)
  · exact Or.inl (h2 ▸ h1)
  · exact Or.inl (h1 ▸ h2)
  · exact Or.inr ⟨h1.trans h2, h1d.trans h2d⟩

/-- Generate all facts from a comparison result (`generateFacts`). -/
def generateFacts (comparison : ComparisonResult) : FactsResult :=
  let relevantChanges := comparison.changes.filter
    (fun c => !(c.category == .aggregate) || c.code == "netPay")
  let directFacts := relevantChanges.map generateFactFromChange
  let causalFacts := generateCausalFacts comparison.changes
  let facts := (directFacts ++ causalFacts).insertionSort factSortLE
  let prevMonth := getMonthName comparison.previousPeriod.month
  let currMonth := getMonthName comparison.currentPeriod.month
  let periodDescription :=
    "Changes from " ++ prevMonth ++ " to " ++ currMonth ++ " " ++
      toString comparison.currentPeriod.year
  let netPayFact := facts.find? (fun f => f.type == .net_pay_change)
  let keyTakeaway :=
    ((netPayFact.map (·.sentence)).getD "No significant changes this month.")
  { periodDescription := periodDescription
    employeeName := comparison.displayName
    facts := facts
    keyTakeaway := keyTakeaway }

/-- Get only the most important facts, first by existing order (`getKeyFacts`). -/
def getKeyFacts (result : FactsResult) (limit : Nat := 5) : List Fact :=
  result.facts.take limit

def getFactsByType (result : FactsResult) (type : FactType) : List Fact :=
  result.facts.filter (fun f => f.type == type)

def getCausalFacts (result : FactsResult) : List Fact :=
  result.facts.filter (fun f => f.type == .causal)

def getAllSentences (result : FactsResult) : List String :=
  result.facts.map (·.sentence)

-- ─────────────────────────────────────────────────────────────
-- schemas/payslip.ts : raw payslip model
-- ─────────────────────────────────────────────────────────────

/-- Raw earning line. Fields never read by the pipeline core (tax type,
tax percentage, tax code, MTD and YTD totals) are omitted. -/
structure EarningLine where
  payslipID : Int
  lineCode : String
  lineDescription : String
  total : ℚ
  taxableAmount : ℚ
deriving DecidableEq, Repr, Inhabited

/-- Raw deduction line; same omissions as `EarningLine`. -/
structure DeductionLine where
  payslipID : Int
  lineCode : String
  lineDescription : String
  total : ℚ
  taxDeductibleAmount : ℚ
deriving DecidableEq, Repr, Inhabited

/-- Raw fringe benefit line, shaped like an earning line. -/
structure FringeBenefitLine where
  payslipID : Int
  lineCode : String
  lineDescription : String
  total : ℚ
  taxableAmount : ℚ
deriving DecidableEq, Repr, Inhabited

/-- Raw company contribution line, shaped like a deduction line. -/
structure CompanyContributionLine where
  payslipID : Int
  lineCode : String
  lineDescription : String
  total : ℚ
  taxDeductibleAmount : ℚ
deriving DecidableEq, Repr, Inhabited

/-- Raw payslip header. Identity date strings never read by the pipeline
core (birth date, tax start and end dates, short description) are
omitted. -/
structure PayslipHeader where
  payslipID : Int
  displayName : String
  employeeCode : String
  periodStartDate : String
  periodEndDate : String
  calendarMonth : Int
  calendarYear : Int
  statutoryTaxYear : Int
  netPay : ℚ
  earnings : List EarningLine
  deductions : List DeductionLine
  fringeBenefits : List FringeBenefitLine
  companyContributions : List CompanyContributionLine
deriving DecidableEq, Repr, Inhabited

-- ─────────────────────────────────────────────────────────────
-- utils/payslip-utils.ts : primary payslip detection
-- ─────────────────────────────────────────────────────────────

/-- Check if a payslip is primary, meaning its SALARY line has positive
total (`isPrimaryPayslip`). -/
def isPrimaryPayslip (payslip : PayslipHeader) : Bool :=
  match payslip.earnings.find? (fun e => e.lineCode = "SALARY") with
  | some salary => 0 < salary.total
  | none => false

def filterPrimaryPayslips (payslips : List PayslipHeader) : List PayslipHeader :=
  payslips.filter isPrimaryPayslip

-- ─────────────────────────────────────────────────────────────
-- utils/payslip-utils.ts : sorting
-- ─────────────────────────────────────────────────────────────

/-- Ordering of the `sortPayslipsByPeriod` comparator: year ascending,
then month ascending. -/
def periodSortLE (a b : PayslipHeader) : Prop :=
  a.calendarYear < b.calendarYear ∨
    (a.calendarYear = b.calendarYear ∧ a.calendarMonth ≤ b.calendarMonth)

instance : DecidableRel periodSortLE := fun a b => by
  unfold periodSortLE
  infer_instance

instance : IsTotal PayslipHeader periodSortLE := by
  constructor
  intro a b
  unfold periodSortLE
  rcases lt_trichotomy a.calendarYear b.calendarYear with h | h | h
  · exact Or.inl (Or.inl h)
  · rcases le_total a.calendarMonth b.calendarMonth with h2 | h2
    · exact Or.inl (Or.inr ⟨h, h2⟩)
    · exact Or.inr (Or.inr ⟨h.symm, h2⟩)
  · exact Or.inr (Or.inl h)

instance : IsTrans PayslipHeader periodSortLE := by
  constructor
  intro a b c hab hbc
  unfold periodSortLE at *
  rcases hab with h1 | ⟨h1, h1d⟩ <;> rcases hbc with h2 | ⟨h2, h2d⟩
  · exact Or.inl (h1.trans h2)
  · exact Or.inl (h2 ▸ h1)
  · exact Or.inl (h1 ▸ h2)
  · exact Or.inr ⟨h1.trans h2, h1d.trans h2d⟩

/-- Sort payslips by period, oldest first (`sortPayslipsByPeriod`);
the stable JS sort is modelled by stable insertion sort. -/
def sortPayslipsByPeriod (payslips : List PayslipHeader) : List PayslipHeader :=
  payslips.insertionSort periodSortLE

-- ─────────────────────────────────────────────────────────────
-- utils/payslip-utils.ts : normalization
-- ─────────────────────────────────────────────────────────────

def normalizeEarningLine (line : EarningLine) : NormalizedLine :=
  { code := line.lineCode
    description := line.lineDescription
    amount := line.total
    taxableAmount := line.taxableAmount
    taxDeductibleAmount := 0 }

def normalizeDeductionLine (line : DeductionLine) : NormalizedLine :=
  { code := line.lineCode
    description := line.lineDescription
    amount := line.total
    taxableAmount := 0
    taxDeductibleAmount := line.taxDeductibleAmount }

def normalizeFringeBenefitLine (line : FringeBenefitLine) : NormalizedLine :=
  { code := line.lineCode
    description := line.lineDescription
    amount := line.total
    taxableAmount := line.taxableAmount
    taxDeductibleAmount := 0 }

def normalizeCompanyContributionLine (line : CompanyContributionLine) :
    NormalizedLine :=
  { code := line.lineCode
    description := line.lineDescription
    amount := line.total
    taxableAmount := 0
    taxDeductibleAmount := line.taxDeductibleAmount }

/-- Build one category map from raw lines by repeated `Map.set`, given
the code and the normalized shape of each line. -/
def buildLineMap {α : Type} (key : α → String) (norm : α → NormalizedLine)
    (lines : List α) : LineMap :=
  lines.foldl (fun m line => lineMapSet m (key line) (norm line)) []

/-- Sum of a numeric field over raw lines (`reduce((sum, x) => sum + f x, 0)`). -/
def sumBy {α : Type} (f : α → ℚ) (lines : List α) : ℚ :=
  lines.foldl (fun sum line => sum + f line) 0

/-- Normalize a raw payslip header into a `NormalizedPayslip`
(`normalizePayslip`). -/
def normalizePayslip (payslip : PayslipHeader) : NormalizedPayslip :=
  let earnings := buildLineMap (·.lineCode) normalizeEarningLine payslip.earnings
  let deductions :=
    buildLineMap (·.lineCode) normalizeDeductionLine payslip.deductions
  let fringeBenefits :=
    buildLineMap (·.lineCode) normalizeFringeBenefitLine payslip.fringeBenefits
  let companyContributions :=
    buildLineMap (·.lineCode) normalizeCompanyContributionLine
      payslip.companyContributions
  { payslipID := payslip.payslipID
    employeeCode := payslip.employeeCode
    displayName := payslip.displayName
    period := ⟨payslip.calendarYear, payslip.calendarMonth,
      payslip.periodStartDate, payslip.periodEndDate⟩
    taxYear := payslip.statutoryTaxYear
    earnings := earnings
    deductions := deductions
    fringeBenefits := fringeBenefits
    companyContributions := companyContributions
    totals := {
      grossEarnings := sumBy (·.total) payslip.earnings
      totalTaxableEarnings := sumBy (·.taxableAmount) payslip.earnings
      totalDeductions := sumBy (·.total) payslip.deductions
      totalTaxDeductible := sumBy (·.taxDeductibleAmount) payslip.deductions
      totalFringeBenefits := sumBy (·.total) payslip.fringeBenefits
      totalCompanyContributions := sumBy (·.total) payslip.companyContributions
      netPay := payslip.netPay }
    keyAmounts := {
      basicSalary := lookupAmount earnings "SALARY"
      paye := lookupAmount deductions "PAYE"
      uif := lookupAmount deductions "UIF"
      overtime := lookupAmount earnings "OTIME1_5" + lookupAmount earnings "OTIME2_0"
      travel := lookupAmount earnings "TRAVEL"
      commission := lookupAmount earnings "COMM" } }

/-- All primary payslips, normalized and sorted by period, oldest first
(`getNormalizedPrimaryPayslips`). -/
def getNormalizedPrimaryPayslips (payslips : List PayslipHeader) :
    List NormalizedPayslip :=
  (sortPayslipsByPeriod (filterPrimaryPayslips payslips)).map normalizePayslip

/-- The previous and current payslip for comparison, the last two of the
sorted primary list (`getPayslipPairForComparison`). -/
def getPayslipPairForComparison (payslips : List PayslipHeader) :
    Option (NormalizedPayslip × NormalizedPayslip) :=
  let normalized := getNormalizedPrimaryPayslips payslips
  if normalized.length < 2 then none
  else some (normalized.getD (normalized.length - 2) default,
    normalized.getD (normalized.length - 1) default)

-- ─────────────────────────────────────────────────────────────
-- engine/narrator.ts : deterministic fallback narration
-- ─────────────────────────────────────────────────────────────

structure LlmUsage where
  promptTokens : Nat
  completionTokens : Nat
  totalTokens : Nat
deriving DecidableEq, Repr, Inhabited

structure NarratorResult where
  explanation : String
  usage : Option LlmUsage
deriving DecidableEq, Repr, Inhabited

/-- Deterministic multi-line digest (`narrateFactsSimple`). -/
def narrateFactsSimple (facts : FactsResult) : String :=
  let keyFacts := getKeyFacts facts 5
  let lines := [
    "📋 **Payslip Summary for " ++ facts.employeeName ++ "**",
    "📅 " ++ facts.periodDescription,
    "",
    "**Key Takeaway:** " ++ facts.keyTakeaway,
    "",
    "**Details:**"] ++ keyFacts.map (fun f => "• " ++ f.sentence)
  String.intercalate "\n" lines

-- ─────────────────────────────────────────────────────────────
-- engine/pipeline.ts : pipeline orchestration
-- ─────────────────────────────────────────────────────────────

structure PipelineResult where
  success : Bool
  error : Option String
  payslips : Option (NormalizedPayslip × NormalizedPayslip)
  comparison : Option ComparisonResult
  facts : Option FactsResult
  explanation : Option String
  llmUsage : Option LlmUsage
deriving DecidableEq, Repr, Inhabited

/-- Run the full payslip comparison pipeline (`runPipeline`). The external
LLM narration collaborator `narrateLLM` is passed as a function; a
rejected promise from `narrateFacts` is modelled as `Except.error`
carrying the message of the thrown error, which the try block of the
source converts into a structured failure result. All other stages are
total functions and cannot throw. -/
def runPipeline (payslips : List PayslipHeader) (useLLM : Bool)
    (narrateLLM : FactsResult → Except String NarratorResult) : PipelineResult :=
  match getPayslipPairForComparison payslips with
  | none =>
      { success := false
        error := some "Not enough primary payslips to compare (need at least 2)"
        payslips := none
        comparison := none
        facts := none
        explanation := none
        llmUsage := none }
  | some (previous, current) =>
      let comparison := comparePayslips previous current
      let facts := generateFacts comparison
      if useLLM then
        match narrateLLM facts with
        | .error msg =>
            { success := false
              error := some msg
              payslips := none
              comparison := none
              facts := none
              explanation := none
              llmUsage := none }
        | .ok narratorResult =>
            { success := true
              error := none
              payslips := some (previous, current)
              comparison := some comparison
              facts := some facts
              explanation := some narratorResult.explanation
              llmUsage := narratorResult.usage }
      else
        { success := true
          error := none
          payslips := some (previous, current)
          comparison := some comparison
          facts := some facts
          explanation := some (narrateFactsSimple facts)
          llmUsage := none }

-- ─────────────────────────────────────────────────────────────
-- Spec-side definitions and concrete data used by the theorems
-- ─────────────────────────────────────────────────────────────

/-- Modelled from the spec wording of the causal-fact rule: the pairs of
a cause change record and an effect change record such that the
dependency table declares that the cause code affects the effect code,
and a change record with that effect code and a direction other than
unchanged exists. -/
def causalPairsSpec (changes : List ChangeRecord) :
    List (ChangeRecord × ChangeRecord) :=
  changes.flatMap fun cause =>
    (getAffectedBy cause.code).filterMap fun effectCode =>
      (changes.find? (fun e => e.code == effectCode &&
        !(e.direction == ChangeDirection.unchanged))).map (fun e => (cause, e))

/-- Modelled from the spec wording of the pairing rule: one normalized
payslip is no later than another when its year is smaller, or the years
agree and its month is no larger. -/
def normPeriodLE (a b : NormalizedPayslip) : Prop :=
  a.period.year < b.period.year ∨
    (a.period.year = b.period.year ∧ a.period.month ≤ b.period.month)

/-- Concrete previous-period payslip used by the witnesses, following the
end-to-end scenario of the spec. -/
def demoPrevPayslip : PayslipHeader :=
  { payslipID := 55
    displayName := "Mr NEG StandardHost"
    employeeCode := "EMP001"
    periodStartDate := "2012-05-01"
    periodEndDate := "2012-05-31"
    calendarMonth := 5
    calendarYear := 2012
    statutoryTaxYear := 2013
    netPay := 19000
    earnings := [⟨55, "SALARY", "Basic Salary", 25000, 25000⟩,
      ⟨55, "TRAVEL", "Travel Allowance", 1500, 900⟩]
    deductions := [⟨55, "PAYE", "PAYE Tax", 5000, 0⟩]
    fringeBenefits := []
    companyContributions := [] }

/-- Concrete current-period payslip used by the witnesses. -/
def demoCurrPayslip : PayslipHeader :=
  { payslipID := 56
    displayName := "Mr NEG StandardHost"
    employeeCode := "EMP001"
    periodStartDate := "2012-06-01"
    periodEndDate := "2012-06-30"
    calendarMonth := 6
    calendarYear := 2012
    statutoryTaxYear := 2013
    netPay := 18300
    earnings := [⟨56, "SALARY", "Basic Salary", 25000, 25000⟩,
      ⟨56, "TRAVEL", "Travel Allowance", 1500, 900⟩]
    deductions := [⟨56, "PAYE", "PAYE Tax", 5200, 0⟩,
      ⟨56, "ADVANCE", "Advance", 500, 0⟩]
    fringeBenefits := []
    companyContributions := [] }

/-- The single change record emitted for a removed line of amount 0, used
as concrete data below. -/
def removedZeroRecord : ChangeRecord :=
  { id := "earning:OLD0:amount"
    label := "Old Zero"
    category := .earning
    code := "OLD0"
    oldValue := 0
    newValue := 0
    delta := 0
    percentChange := none
    direction := .removed
    importance := .medium }

-- ─────────────────────────────────────────────────────────────
-- Claim C2
-- ─────────────────────────────────────────────────────────────

/-- C2: the importance assigned to a change record is the pure function of
(category, code, delta, direction) given exactly by the spec rule chain:
the codes netPay, PAYE, paye, SALARY, basicSalary yield high; otherwise
direction added or removed yields medium; otherwise category aggregate
yields medium; otherwise absolute delta below 100 yields low; otherwise
medium. No other path yields high. -/
theorem determineImportance_matches_spec :
    ∀ (category : ChangeCategory) (code : String) (delta : ℚ)
      (direction : ChangeDirection),
      determineImportance category code delta direction =
        importanceSpecRule category code delta direction ∧
      (determineImportance category code delta direction = .high ↔
        code = "netPay" ∨ code = "PAYE" ∨ code = "paye" ∨ code = "SALARY" ∨
          code = "basicSalary") := by
  intro category code delta direction
  unfold determineImportance importanceSpecRule
  split_ifs <;> simp_all

-- ─────────────────────────────────────────────────────────────
-- Supporting lemmas : dedupFirst and the line comparison loop
-- ─────────────────────────────────────────────────────────────

theorem mem_dedupFirst {a : String} : ∀ {l : List String}, a ∈ dedupFirst l ↔ a ∈ l
  | [] => Iff.rfl
  | x :: xs => by
    by_cases hax : a = x
    · subst hax
      simp [dedupFirst]
    · simp only [dedupFirst, List.mem_cons, List.mem_filter]
      constructor
      · rintro (h | ⟨h, -⟩)
        · exact Or.inl h
        · exact Or.inr (mem_dedupFirst.mp h)
      · rintro (h | h)
        · exact Or.inl h
        · exact Or.inr ⟨mem_dedupFirst.mpr h, by simpa using hax⟩

theorem lineChange_eq_none_iff {category : ChangeCategory} {oldMap newMap : LineMap}
    {code : String} :
    lineChange category oldMap newMap code = none ↔
      (lookupAmount newMap code - lookupAmount oldMap code = 0 ∧
        lineIsAdded oldMap newMap code = false ∧
        lineIsRemoved oldMap newMap code = false) := by
  dsimp only [lineChange]
  split_ifs with h1 h2
  · obtain ⟨ho, hn, ha, hr⟩ := h1
    simp [ho, hn, ha, hr]
  · simpa using h2
  · simpa using h2

theorem lineChange_eq_some {category : ChangeCategory} {oldMap newMap : LineMap}
    {code : String} {r : ChangeRecord}
    (h : lineChange category oldMap newMap code = some r) :
    r.code = code ∧ r.category = category ∧
      r.oldValue = lookupAmount oldMap code ∧
      r.newValue = lookupAmount newMap code ∧
      r.delta = lookupAmount newMap code - lookupAmount oldMap code ∧
      r.direction = getChangeDirection (lookupAmount oldMap code)
        (lookupAmount newMap code) (lineIsAdded oldMap newMap code)
        (lineIsRemoved oldMap newMap code) ∧
      ¬(r.delta = 0 ∧ lineIsAdded oldMap newMap code = false ∧
        lineIsRemoved oldMap newMap code = false) := by
  dsimp only [lineChange] at h
  split_ifs at h with h1 h2
  obtain rfl := (Option.some_injective _ h).symm
  refine ⟨rfl, rfl, rfl, rfl, rfl, rfl, ?_⟩
  simpa using h2

theorem mem_compareLineMaps_iff {category : ChangeCategory}
    {oldMap newMap : LineMap} {code : String} :
    (∃ r ∈ compareLineMaps category oldMap newMap, r.code = code) ↔
      ((code ∈ lineMapKeys oldMap ∨ code ∈ lineMapKeys newMap) ∧
        ¬(lookupAmount newMap code - lookupAmount oldMap code = 0 ∧
          lineIsAdded oldMap newMap code = false ∧
          lineIsRemoved oldMap newMap code = false)) := by
  constructor
  · rintro ⟨r, hr, hcode⟩
    rw [compareLineMaps] at hr
    obtain ⟨c, hc, hsome⟩ := List.mem_filterMap.mp hr
    obtain ⟨hc1, -⟩ := lineChange_eq_some hsome
    obtain rfl : c = code := hc1.symm.trans hcode
    refine ⟨?_, fun hnone => by simp [lineChange_eq_none_iff.mpr hnone] at hsome⟩
    simpa using mem_dedupFirst.mp hc
  · rintro ⟨hmem, hcond⟩
    have hne : lineChange category oldMap newMap code ≠ none :=
      fun hnone => hcond (lineChange_eq_none_iff.mp hnone)
    obtain ⟨r, hr⟩ := Option.ne_none_iff_exists'.mp hne
    refine ⟨r, ?_, (lineChange_eq_some hr).1⟩
    rw [compareLineMaps]
    exact List.mem_filterMap.mpr ⟨code,
      mem_dedupFirst.mpr (by simpa using hmem), hr⟩

theorem getChangeDirection_eq_unchanged {o n : ℚ} {a r : Bool}
    (h : getChangeDirection o n a r = .unchanged) :
    n - o = 0 ∧ a = false ∧ r = false := by
  unfold getChangeDirection at h
  split_ifs at h with h1 h2 h3 h4
  have : o = n := le_antisymm (not_lt.mp h4) (not_lt.mp h3)
  simp_all [sub_eq_zero]

-- ─────────────────────────────────────────────────────────────
-- Claim C4
-- ─────────────────────────────────────────────────────────────

/-- C4: for every pair of line-item category maps and every code, a change
record for that code exists in the output exactly when the code occurs in
the union of keys, and neither both values are 0 with the item neither
added nor removed, nor the delta is 0 with the item neither added nor
removed. -/
theorem compareLineMaps_emission (category : ChangeCategory)
    (oldMap newMap : LineMap) (code : String) :
    (∃ r ∈ compareLineMaps category oldMap newMap, r.code = code) ↔
      ((code ∈ lineMapKeys oldMap ∨ code ∈ lineMapKeys newMap) ∧
        ¬(lookupAmount oldMap code = 0 ∧ lookupAmount newMap code = 0 ∧
          lineIsAdded oldMap newMap code = false ∧
          lineIsRemoved oldMap newMap code = false) ∧
        ¬(lookupAmount newMap code - lookupAmount oldMap code = 0 ∧
          lineIsAdded oldMap newMap code = false ∧
          lineIsRemoved oldMap newMap code = false)) := by
  rw [mem_compareLineMaps_iff]
  have hAB : (lookupAmount oldMap code = 0 ∧ lookupAmount newMap code = 0 ∧
      lineIsAdded oldMap newMap code = false ∧
      lineIsRemoved oldMap newMap code = false) →
      (lookupAmount newMap code - lookupAmount oldMap code = 0 ∧
        lineIsAdded oldMap newMap code = false ∧
        lineIsRemoved oldMap newMap code = false) := by
    rintro ⟨h1, h2, h3, h4⟩
    rw [h1, h2]
    exact ⟨sub_zero 0, h3, h4⟩
  constructor
  · rintro ⟨hm, hB⟩
    exact ⟨hm, fun hA => hB (hAB hA), hB⟩
  · rintro ⟨hm, -, hB⟩
    exact ⟨hm, hB⟩

/-- Witness for C4 at a concrete deduction map pair with a changed PAYE
line. -/
theorem compareLineMaps_emission_witness :
    ∃ r ∈ compareLineMaps .deduction [("PAYE", ⟨"PAYE", "PAYE Tax", 5000, 0, 0⟩)]
      [("PAYE", ⟨"PAYE", "PAYE Tax", 5200, 0, 0⟩)], r.code = "PAYE" :=
  (compareLineMaps_emission .deduction
    [("PAYE", ⟨"PAYE", "PAYE Tax", 5000, 0, 0⟩)]
    [("PAYE", ⟨"PAYE", "PAYE Tax", 5200, 0, 0⟩)] "PAYE").mpr
    (of_decide_eq_true (by with_unfolding_all rfl))

-- ─────────────────────────────────────────────────────────────
-- Claim C9
-- ─────────────────────────────────────────────────────────────

/-- C9 counterexample: an item present only in the new map with amount 0
does produce a change record, with direction added and both values 0, so
a record with delta 0 is not always suppressed. -/
theorem zero_added_record_emitted :
    (compareLineMaps .earning [] [("BONUS", ⟨"BONUS", "Bonus", 0, 0, 0⟩)]).map
        (fun r => (r.code, r.direction, r.oldValue, r.newValue, r.delta)) =
      [("BONUS", ChangeDirection.added, 0, 0, 0)] :=
  of_decide_eq_true (by with_unfolding_all rfl)

theorem lineIsAdded_lookup_zero {oldMap newMap : LineMap} {code : String}
    (h : lineIsAdded oldMap newMap code = true) : lookupAmount oldMap code = 0 := by
  unfold lineIsAdded at h
  rw [Bool.and_eq_true] at h
  unfold lookupAmount
  rw [Option.isNone_iff_eq_none.mp h.1]
  rfl

theorem lineIsRemoved_lookup_zero {oldMap newMap : LineMap} {code : String}
    (h : lineIsRemoved oldMap newMap code = true) : lookupAmount newMap code = 0 := by
  unfold lineIsRemoved at h
  rw [Bool.and_eq_true] at h
  unfold lookupAmount
  rw [Option.isNone_iff_eq_none.mp h.2]
  rfl

/-- C9 (amended): a line-item change with delta 0 is suppressed only when
the item is neither added nor removed; when a record with delta 0 is
emitted, it is an added or removed record and both its values are 0. -/
theorem zero_delta_record_is_added_or_removed (category : ChangeCategory)
    (oldMap newMap : LineMap) (r : ChangeRecord)
    (h : r ∈ compareLineMaps category oldMap newMap) (hd : r.delta = 0) :
    (r.direction = .added ∨ r.direction = .removed) ∧
      r.oldValue = 0 ∧ r.newValue = 0 := by
  rw [compareLineMaps] at h
  obtain ⟨code, -, hsome⟩ := List.mem_filterMap.mp h
  obtain ⟨-, -, hold, hnew, hdelta, hdir, hguard⟩ := lineChange_eq_some hsome
  have hsub : lookupAmount newMap code - lookupAmount oldMap code = 0 := by
    rw [← hdelta, hd]
  have heq : lookupAmount newMap code = lookupAmount oldMap code :=
    sub_eq_zero.mp hsub
  have har : lineIsAdded oldMap newMap code = true ∨
      lineIsRemoved oldMap newMap code = true := by
    by_contra hc
    push_neg at hc
    have ha0 : lineIsAdded oldMap newMap code = false := by simpa using hc.1
    have hr0 : lineIsRemoved oldMap newMap code = false := by simpa using hc.2
    exact hguard ⟨hd, ha0, hr0⟩
  have hvals : r.oldValue = 0 ∧ r.newValue = 0 := by
    rcases har with ha | hr2
    · have h0 : lookupAmount oldMap code = 0 := lineIsAdded_lookup_zero ha
      exact ⟨by rw [hold, h0], by rw [hnew, heq, h0]⟩
    · have h0 : lookupAmount newMap code = 0 := lineIsRemoved_lookup_zero hr2
      exact ⟨by rw [hold, ← heq, h0], by rw [hnew, h0]⟩
  refine ⟨?_, hvals⟩
  rcases har with ha | hr2
  · left
    rw [hdir]
    unfold getChangeDirection
    rw [if_pos ha]
  · have ha0 : lineIsAdded oldMap newMap code = false := by
      unfold lineIsAdded
      unfold lineIsRemoved at hr2
      rw [Bool.and_eq_true] at hr2
      rcases hg : lineMapGet oldMap code with _ | v
      · rw [hg] at hr2
        simp at hr2
      · rfl
    right
    rw [hdir]
    unfold getChangeDirection
    rw [if_neg (by simp [ha0]), if_pos hr2]

/-- Witness for the amended C9 at a concrete removed line of amount 0. -/
theorem zero_delta_record_witness :
    removedZeroRecord ∈ compareLineMaps .earning
      [("OLD0", ⟨"OLD0", "Old Zero", 0, 0, 0⟩)] [] ∧
    removedZeroRecord.delta = 0 ∧
    (removedZeroRecord.direction = .added ∨ removedZeroRecord.direction = .removed) ∧
      removedZeroRecord.oldValue = 0 ∧ removedZeroRecord.newValue = 0 :=
  ⟨of_decide_eq_true (by with_unfolding_all rfl),
    of_decide_eq_true (by with_unfolding_all rfl),
    zero_delta_record_is_added_or_removed .earning
      [("OLD0", ⟨"OLD0", "Old Zero", 0, 0, 0⟩)] [] removedZeroRecord
      (of_decide_eq_true (by with_unfolding_all rfl))
      (of_decide_eq_true (by with_unfolding_all rfl))⟩

-- ─────────────────────────────────────────────────────────────
-- Supporting lemmas : directions of emitted records
-- ─────────────────────────────────────────────────────────────

theorem mem_compareLineMaps_direction {category : ChangeCategory}
    {oldMap newMap : LineMap} {r : ChangeRecord}
    (h : r ∈ compareLineMaps category oldMap newMap) :
    r.direction ≠ .unchanged := by
  rw [compareLineMaps] at h
  obtain ⟨code, -, hsome⟩ := List.mem_filterMap.mp h
  obtain ⟨-, -, -, -, hdelta, hdir, hguard⟩ := lineChange_eq_some hsome
  intro hun
  rw [hun] at hdir
  obtain ⟨h0, ha, hr⟩ := getChangeDirection_eq_unchanged hdir.symm
  exact hguard ⟨hdelta.trans h0, ha, hr⟩

theorem mem_compareAggregates_direction {category : ChangeCategory}
    {fields : List AggregateField} {prev curr : NormalizedPayslip}
    {r : ChangeRecord} (h : r ∈ compareAggregates category fields prev curr) :
    r.direction ≠ .unchanged := by
  rw [compareAggregates] at h
  obtain ⟨field, -, hsome⟩ := List.mem_filterMap.mp h
  dsimp only at hsome
  split_ifs at hsome with h1 h2
  obtain rfl := (Option.some_injective _ hsome).symm
  intro hun
  obtain ⟨h0, -, -⟩ := getChangeDirection_eq_unchanged (by simpa using hun)
  exact h1 h0

theorem mem_collectChanges_direction {previous current : NormalizedPayslip}
    {r : ChangeRecord} (h : r ∈ collectChanges previous current) :
    r.direction ≠ .unchanged := by
  rw [collectChanges] at h
  simp only [List.mem_append] at h
  rcases h with ((((h | h) | h) | h) | h) | h
  · exact mem_compareLineMaps_direction h
  · exact mem_compareLineMaps_direction h
  · exact mem_compareLineMaps_direction h
  · exact mem_compareLineMaps_direction h
  · exact mem_compareAggregates_direction h
  · exact mem_compareAggregates_direction (List.mem_of_mem_filter h)

theorem length_filter_directions {l : List ChangeRecord}
    (h : ∀ c ∈ l, c.direction ≠ ChangeDirection.unchanged) :
    (l.filter fun c => c.direction == ChangeDirection.increase).length +
      (l.filter fun c => c.direction == ChangeDirection.decrease).length +
      (l.filter fun c => c.direction == ChangeDirection.added).length +
      (l.filter fun c => c.direction == ChangeDirection.removed).length =
      l.length := by
  induction l with
  | nil => rfl
  | cons c cs ih =>
    have hc := h c (List.mem_cons_self c cs)
    have hcs := ih fun x hx => h x (List.mem_cons_of_mem c hx)
    cases hdir : c.direction <;>
      simp_all [List.filter_cons, List.length_cons] <;> omega

-- ─────────────────────────────────────────────────────────────
-- Claim C10
-- ─────────────────────────────────────────────────────────────

/-- C10: no change record produced by comparePayslips has direction
unchanged, and the four direction counts of the summary add up to
totalChanges, which is the length of the changes list. -/
theorem comparePayslips_no_unchanged (previous current : NormalizedPayslip) :
    (∀ c ∈ (comparePayslips previous current).changes,
      c.direction ≠ .unchanged) ∧
    (comparePayslips previous current).summary.increases +
      (comparePayslips previous current).summary.decreases +
      (comparePayslips previous current).summary.added +
      (comparePayslips previous current).summary.removed =
      (comparePayslips previous current).summary.totalChanges ∧
    (comparePayslips previous current).summary.totalChanges =
      (comparePayslips previous current).changes.length := by
  have hmem : ∀ c ∈ (comparePayslips previous current).changes,
      c.direction ≠ ChangeDirection.unchanged := by
    intro c hc
    simp only [comparePayslips] at hc
    exact mem_collectChanges_direction
      ((List.mem_insertionSort changeSortLE).mp hc)
  refine ⟨hmem, ?_, ?_⟩
  · have := length_filter_directions (l :=
      (collectChanges previous current).insertionSort changeSortLE)
      (by simpa only [comparePayslips] using hmem)
    simpa only [comparePayslips] using this
  · rfl

-- ─────────────────────────────────────────────────────────────
-- Claim C5
-- ─────────────────────────────────────────────────────────────

/-- C5: comparing a normalized payslip against itself yields no change
records and a net pay delta of 0. -/
theorem comparePayslips_self (p : NormalizedPayslip) :
    (comparePayslips p p).changes = [] ∧
      (comparePayslips p p).summary.netPayDelta = 0 := by
  have hline : ∀ (category : ChangeCategory) (m : LineMap),
      compareLineMaps category m m = [] := by
    intro category m
    rw [compareLineMaps]
    refine List.filterMap_eq_nil_iff.mpr fun code _ => ?_
    refine lineChange_eq_none_iff.mpr ⟨sub_self _, ?_, ?_⟩
    · unfold lineIsAdded
      cases lineMapGet m code <;> rfl
    · unfold lineIsRemoved
      cases lineMapGet m code <;> rfl
  have hagg : ∀ (category : ChangeCategory) (fields : List AggregateField),
      compareAggregates category fields p p = [] := by
    intro category fields
    rw [compareAggregates]
    refine List.filterMap_eq_nil_iff.mpr fun field _ => ?_
    simp [sub_self]
  have hcollect : collectChanges p p = [] := by
    rw [collectChanges]
    simp [hline, hagg]
  constructor
  · simp [comparePayslips, hcollect]
  · simp [comparePayslips, sub_self]

-- ─────────────────────────────────────────────────────────────
-- Supporting lemmas : stability of the modelled stable sort
-- ─────────────────────────────────────────────────────────────

theorem filter_insertionSort_of_tied {α : Type} (r : α → α → Prop)
    [DecidableRel r] (p : α → Bool) (l : List α)
    (hp : ∀ a b, p a = true → p b = true → r a b) :
    (l.insertionSort r).filter p = l.filter p := by
  have h1 : List.Sublist (l.filter p) (l.insertionSort r) :=
    List.sublist_insertionSort
      (List.pairwise_of_forall_mem_list fun a ha b hb =>
        hp a b (List.of_mem_filter ha) (List.of_mem_filter hb))
      (List.filter_sublist l)
  have h2 : List.Perm ((l.insertionSort r).filter p) (l.filter p) :=
    (List.perm_insertionSort r l).filter p
  have h3 : List.Sublist (l.filter p) ((l.insertionSort r).filter p) := by
    have h4 := h1.filter p
    rwa [show (l.filter p).filter p = l.filter p by
      simp [List.filter_filter]] at h4
  exact (h3.eq_of_length_le (le_of_eq h2.length_eq)).symm

-- ─────────────────────────────────────────────────────────────
-- Claim C3
-- ─────────────────────────────────────────────────────────────

/-- C3: the changes list of comparePayslips is sorted by importance
ascending and, within equal importance, by descending absolute delta
(the relation changeSortLE); and records with equal importance and equal
absolute delta keep their pre-sort relative order: filtering any tie
class out of the sorted list gives exactly the filter of the original
collection order. -/
theorem comparePayslips_changes_sorted (previous current : NormalizedPayslip) :
    (comparePayslips previous current).changes.Pairwise changeSortLE ∧
    ∀ (imp : ImportanceLevel) (d : ℚ),
      (comparePayslips previous current).changes.filter
          (fun c => c.importance == imp && |c.delta| == d) =
        (collectChanges previous current).filter
          (fun c => c.importance == imp && |c.delta| == d) := by
  constructor
  · have h := List.sorted_insertionSort changeSortLE
      (collectChanges previous current)
    simpa only [comparePayslips] using h
  · intro imp d
    have h := filter_insertionSort_of_tied changeSortLE
      (fun c => c.importance == imp && |c.delta| == d)
      (collectChanges previous current) ?_
    · simpa only [comparePayslips] using h
    · intro a b ha hb
      rw [Bool.and_eq_true, beq_iff_eq, beq_iff_eq] at ha hb
      exact Or.inr ⟨by rw [ha.1, hb.1], by rw [ha.2, hb.2]⟩

-- ─────────────────────────────────────────────────────────────
-- Supporting lemmas : association maps built by repeated set
-- ─────────────────────────────────────────────────────────────

theorem mapSet_of_not_mem {β : Type} {m : List (String × β)} {k : String}
    (v : β) (h : k ∉ mapKeys m) : mapSet m k v = m ++ [(k, v)] := by
  unfold mapSet
  rw [if_neg]
  intro hany
  rw [List.any_eq_true] at hany
  obtain ⟨kv, hkv, he⟩ := hany
  exact h (List.mem_map.mpr ⟨kv, hkv, by simpa using he⟩)

theorem foldl_mapSet_eq {α β : Type} (key : α → String) (val : α → β) :
    ∀ (lines : List α) (init : List (String × β)),
      (∀ x ∈ lines, key x ∉ mapKeys init) → (lines.map key).Nodup →
      lines.foldl (fun m x => mapSet m (key x) (val x)) init =
        init ++ lines.map fun x => (key x, val x)
  | [], init, _, _ => by simp
  | x :: xs, init, hdisj, hnd => by
    rw [List.foldl_cons,
      mapSet_of_not_mem (val x) (hdisj x (List.mem_cons_self x xs))]
    rw [List.map_cons, List.nodup_cons] at hnd
    have hdisj2 : ∀ y ∈ xs, key y ∉ mapKeys (init ++ [(key x, val x)]) := by
      intro y hy hmem
      simp only [mapKeys, List.map_append, List.map_cons, List.map_nil,
        List.mem_append, List.mem_cons, List.not_mem_nil, or_false] at hmem
      rcases hmem with hmem | hmem
      · exact hdisj y (List.mem_cons_of_mem x hy) hmem
      · exact hnd.1 (hmem ▸ List.mem_map_of_mem key hy)
    rw [foldl_mapSet_eq key val xs (init ++ [(key x, val x)]) hdisj2 hnd.2]
    simp

-- buildLineMap and the totals sums

theorem buildLineMap_eq {α : Type} (key : α → String) (norm : α → NormalizedLine)
    (lines : List α) (h : (lines.map key).Nodup) :
    buildLineMap key norm lines = lines.map fun l => (key l, norm l) := by
  have hfold := foldl_mapSet_eq key norm lines [] (by simp [mapKeys]) h
  unfold buildLineMap lineMapSet
  rw [hfold]
  simp

theorem foldl_add_map {α : Type} (f : α → ℚ) :
    ∀ (l : List α) (a : ℚ), l.foldl (fun s x => s + f x) a = a + (l.map f).sum
  | [], a => by simp
  | x :: xs, a => by
    rw [List.foldl_cons, foldl_add_map f xs (a + f x)]
    rw [List.map_cons, List.sum_cons]
    ring

theorem sumBy_eq {α : Type} (f : α → ℚ) (lines : List α) :
    sumBy f lines = (lines.map f).sum := by
  unfold sumBy
  rw [foldl_add_map]
  exact zero_add _

-- ─────────────────────────────────────────────────────────────
-- Claim C8
-- ─────────────────────────────────────────────────────────────

/-- C8: for a raw payslip whose line codes are unique within each
category list, every aggregate of the normalized payslip equals the sum
of the corresponding field over the corresponding line-item map, and the
net pay total is the raw net pay copied verbatim. -/
theorem normalizePayslip_totals (payslip : PayslipHeader)
    (hE : (payslip.earnings.map (·.lineCode)).Nodup)
    (hD : (payslip.deductions.map (·.lineCode)).Nodup)
    (hF : (payslip.fringeBenefits.map (·.lineCode)).Nodup)
    (hC : (payslip.companyContributions.map (·.lineCode)).Nodup) :
    (normalizePayslip payslip).totals.grossEarnings =
      ((normalizePayslip payslip).earnings.map fun kv => kv.2.amount).sum ∧
    (normalizePayslip payslip).totals.totalTaxableEarnings =
      ((normalizePayslip payslip).earnings.map fun kv => kv.2.taxableAmount).sum ∧
    (normalizePayslip payslip).totals.totalDeductions =
      ((normalizePayslip payslip).deductions.map fun kv => kv.2.amount).sum ∧
    (normalizePayslip payslip).totals.totalTaxDeductible =
      ((normalizePayslip payslip).deductions.map
        fun kv => kv.2.taxDeductibleAmount).sum ∧
    (normalizePayslip payslip).totals.totalFringeBenefits =
      ((normalizePayslip payslip).fringeBenefits.map fun kv => kv.2.amount).sum ∧
    (normalizePayslip payslip).totals.totalCompanyContributions =
      ((normalizePayslip payslip).companyContributions.map
        fun kv => kv.2.amount).sum ∧
    (normalizePayslip payslip).totals.netPay = payslip.netPay := by
  simp only [normalizePayslip]
  rw [buildLineMap_eq _ _ _ hE, buildLineMap_eq _ _ _ hD,
    buildLineMap_eq _ _ _ hF, buildLineMap_eq _ _ _ hC]
  simp [List.map_map, Function.comp_def, normalizeEarningLine,
    normalizeDeductionLine, normalizeFringeBenefitLine,
    normalizeCompanyContributionLine, sumBy_eq]

/-- Witness for C8 at the concrete current-period demo payslip. -/
theorem normalizePayslip_totals_witness :
    (normalizePayslip demoCurrPayslip).totals.grossEarnings =
      ((normalizePayslip demoCurrPayslip).earnings.map fun kv => kv.2.amount).sum ∧
    (normalizePayslip demoCurrPayslip).totals.totalTaxableEarnings =
      ((normalizePayslip demoCurrPayslip).earnings.map
        fun kv => kv.2.taxableAmount).sum ∧
    (normalizePayslip demoCurrPayslip).totals.totalDeductions =
      ((normalizePayslip demoCurrPayslip).deductions.map
        fun kv => kv.2.amount).sum ∧
    (normalizePayslip demoCurrPayslip).totals.totalTaxDeductible =
      ((normalizePayslip demoCurrPayslip).deductions.map
        fun kv => kv.2.taxDeductibleAmount).sum ∧
    (normalizePayslip demoCurrPayslip).totals.totalFringeBenefits =
      ((normalizePayslip demoCurrPayslip).fringeBenefits.map
        fun kv => kv.2.amount).sum ∧
    (normalizePayslip demoCurrPayslip).totals.totalCompanyContributions =
      ((normalizePayslip demoCurrPayslip).companyContributions.map
        fun kv => kv.2.amount).sum ∧
    (normalizePayslip demoCurrPayslip).totals.netPay = demoCurrPayslip.netPay :=
  normalizePayslip_totals demoCurrPayslip
    (of_decide_eq_true (by with_unfolding_all rfl))
    (of_decide_eq_true (by with_unfolding_all rfl))
    (of_decide_eq_true (by with_unfolding_all rfl))
    (of_decide_eq_true (by with_unfolding_all rfl))

-- ─────────────────────────────────────────────────────────────
-- Supporting lemmas : causal fact generation
-- ─────────────────────────────────────────────────────────────

theorem flatMap_congr {α β : Type} {l : List α} {f g : α → List β}
    (h : ∀ a ∈ l, f a = g a) : l.flatMap f = l.flatMap g := by
  induction l with
  | nil => rfl
  | cons x xs ih =>
    rw [List.flatMap_cons, List.flatMap_cons, h x (List.mem_cons_self x xs),
      ih fun a ha => h a (List.mem_cons_of_mem x ha)]

theorem changesByCode_eq {changes : List ChangeRecord}
    (h : (changes.map (·.code)).Nodup) :
    List.foldl (fun m change => mapSet m change.code change)
      ([] : List (String × ChangeRecord)) changes =
      changes.map fun c => (c.code, c) := by
  have hfold := foldl_mapSet_eq (fun c : ChangeRecord => c.code) (fun c => c)
    changes [] (by simp [mapKeys]) h
  simpa using hfold

theorem mapGet_map_code (changes : List ChangeRecord) (k : String) :
    mapGet (changes.map fun c => (c.code, c)) k =
      changes.find? fun c => c.code = k := by
  unfold mapGet
  rw [List.find?_map]
  rw [Option.map_map]
  simp [Function.comp_def]

theorem find?_combined_of_nodup :
    ∀ {changes : List ChangeRecord}, (changes.map (·.code)).Nodup →
    ∀ (k : String) (q : ChangeRecord → Bool),
      changes.find? (fun e => e.code == k && q e) =
        (changes.find? fun e => e.code = k).bind
          fun e => if q e then some e else none
  | [], _, k, q => rfl
  | c :: cs, h, k, q => by
    rw [List.map_cons, List.nodup_cons] at h
    by_cases hck : c.code = k
    · have hbeq : (c.code == k) = true := beq_iff_eq.mpr hck
      have hdec : (decide (c.code = k)) = true := by simpa using hck
      by_cases hq : q c = true
      · simp [List.find?_cons, hbeq, hdec, hq]
      · have hq0 : q c = false := by simpa using hq
        have htail : cs.find? (fun e => e.code == k && q e) = none := by
          rw [List.find?_eq_none]
          intro e he hpred
          rw [Bool.and_eq_true, beq_iff_eq] at hpred
          exact h.1 (by
            rw [hck, ← hpred.1]
            exact List.mem_map_of_mem (fun x => x.code) he)
        simp [List.find?_cons, hbeq, hdec, hq0, htail]
    · have hbeq : (c.code == k) = false := by
        simpa using hck
      have hdec : (decide (c.code = k)) = false := by simpa using hck
      simp only [List.find?_cons, hbeq, hdec, Bool.false_and]
      exact find?_combined_of_nodup h.2 k q

theorem changeToFactType_ne_causal (c : ChangeRecord) :
    changeToFactType c ≠ .causal := by
  unfold changeToFactType
  split_ifs <;> simp

/-- Pointwise form of one causal lookup step, assuming unique codes. -/
theorem causal_lookup_eq {changes : List ChangeRecord}
    (h : (changes.map (·.code)).Nodup) (cause : ChangeRecord)
    (effectCode : String) :
    (match mapGet (changes.map fun c => (c.code, c)) effectCode with
      | some effect =>
          if effect.direction ≠ ChangeDirection.unchanged then
            some (mkCausalFact cause effect)
          else none
      | none => none) =
      ((changes.find? fun e => e.code == effectCode &&
          !(e.direction == ChangeDirection.unchanged)).map
        fun e => (cause, e)).map fun pr => mkCausalFact pr.1 pr.2 := by
  rw [mapGet_map_code,
    find?_combined_of_nodup h effectCode
      (fun e => !(e.direction == ChangeDirection.unchanged))]
  cases hfind : changes.find? fun e => e.code = effectCode with
  | none => rfl
  | some e =>
    by_cases hdir : e.direction = ChangeDirection.unchanged
    · simp [hdir]
    · simp [hdir]

-- ─────────────────────────────────────────────────────────────
-- Claim C6
-- ─────────────────────────────────────────────────────────────

/-- C6: when change codes are unique, generateCausalFacts emits exactly
one causal fact per (cause record, effect code) pair declared by the
dependency table whose effect has a change record with a direction other
than unchanged; each causal fact has importance medium and
relatedChangeIds equal to the cause id and the effect id, and the number
of causal facts in the generateFacts output equals the number of such
pairs. -/
theorem generateCausalFacts_matches_pairs (comparison : ComparisonResult)
    (h : (comparison.changes.map (·.code)).Nodup) :
    generateCausalFacts comparison.changes =
      (causalPairsSpec comparison.changes).map
        (fun pr => mkCausalFact pr.1 pr.2) ∧
    (generateCausalFacts comparison.changes).length =
      (causalPairsSpec comparison.changes).length ∧
    (∀ f ∈ generateCausalFacts comparison.changes,
      f.importance = .medium ∧ f.type = .causal ∧
        ∃ pr ∈ causalPairsSpec comparison.changes,
          f.relatedChangeIds = some [pr.1.id, pr.2.id]) ∧
    ((generateFacts comparison).facts.filter
      (fun f => f.type == FactType.causal)).length =
      (causalPairsSpec comparison.changes).length := by
  have hmain : generateCausalFacts comparison.changes =
      (causalPairsSpec comparison.changes).map
        (fun pr => mkCausalFact pr.1 pr.2) := by
    unfold generateCausalFacts causalPairsSpec
    simp only [changesByCode_eq h]
    rw [List.map_flatMap]
    refine flatMap_congr fun cause _ => ?_
    rw [List.map_filterMap]
    exact List.filterMap_congr fun effectCode _ =>
      causal_lookup_eq h cause effectCode
  have hmem : ∀ f ∈ generateCausalFacts comparison.changes,
      f.importance = ImportanceLevel.medium ∧ f.type = FactType.causal ∧
        ∃ pr ∈ causalPairsSpec comparison.changes,
          f.relatedChangeIds = some [pr.1.id, pr.2.id] := by
    intro f hf
    rw [hmain] at hf
    obtain ⟨pr, hpr, rfl⟩ := List.mem_map.mp hf
    exact ⟨rfl, rfl, pr, hpr, rfl⟩
  refine ⟨hmain, by rw [hmain, List.length_map], hmem, ?_⟩
  have hperm : List.Perm ((generateFacts comparison).facts)
      (((comparison.changes.filter fun c =>
          !(c.category == ChangeCategory.aggregate) || c.code == "netPay").map
        generateFactFromChange) ++ generateCausalFacts comparison.changes) := by
    simp only [generateFacts]
    exact List.perm_insertionSort factSortLE _
  have hlen : ((generateFacts comparison).facts.filter
      (fun f => f.type == FactType.causal)).length =
      ((((comparison.changes.filter fun c =>
          !(c.category == ChangeCategory.aggregate) || c.code == "netPay").map
        generateFactFromChange) ++ generateCausalFacts comparison.changes).filter
          (fun f => f.type == FactType.causal)).length :=
    (hperm.filter _).length_eq
  rw [hlen, List.filter_append]
  have hdirect : (((comparison.changes.filter fun c =>
      !(c.category == ChangeCategory.aggregate) || c.code == "netPay").map
        generateFactFromChange).filter
          (fun f => f.type == FactType.causal)) = [] := by
    rw [List.filter_eq_nil_iff]
    intro f hf
    obtain ⟨c, -, rfl⟩ := List.mem_map.mp hf
    simpa using changeToFactType_ne_causal c
  have hcausal : ((generateCausalFacts comparison.changes).filter
      (fun f => f.type == FactType.causal)) =
      generateCausalFacts comparison.changes := by
    rw [List.filter_eq_self]
    intro f hf
    simpa using (hmem f hf).2.1
  rw [hdirect, hcausal, List.nil_append, hmain, List.length_map]

/-- Witness for C6 at the concrete demo comparison. -/
theorem generateCausalFacts_matches_pairs_witness :
    (generateCausalFacts (comparePayslips (normalizePayslip demoPrevPayslip)
      (normalizePayslip demoCurrPayslip)).changes).length =
      (causalPairsSpec (comparePayslips (normalizePayslip demoPrevPayslip)
        (normalizePayslip demoCurrPayslip)).changes).length :=
  (generateCausalFacts_matches_pairs
    (comparePayslips (normalizePayslip demoPrevPayslip)
      (normalizePayslip demoCurrPayslip))
    (of_decide_eq_true (by with_unfolding_all rfl))).2.1

-- ─────────────────────────────────────────────────────────────
-- Claim C7
-- ─────────────────────────────────────────────────────────────

/-- C7: runPipeline selects the two most recent primary payslips, oldest
first. With fewer than two primary payslips it returns a structured
failure with the descriptive message and no further pipeline stage
output; otherwise the selected pair consists of the last two entries of
the period-sorted normalized primary list, the pair is ordered oldest
first, the current entry is latest among all primaries and the previous
entry is latest among all but the last, and the pipeline (with the
simple narrator) succeeds. A payslip is primary exactly when it has a
SALARY line with positive total. The modelled runPipeline is a total
function, so it never throws. -/
theorem runPipeline_pair_selection (payslips : List PayslipHeader)
    (useLLM : Bool) (narrateLLM : FactsResult → Except String NarratorResult) :
    ((filterPrimaryPayslips payslips).length < 2 →
      runPipeline payslips useLLM narrateLLM =
        { success := false
          error := some "Not enough primary payslips to compare (need at least 2)"
          payslips := none
          comparison := none
          facts := none
          explanation := none
          llmUsage := none }) ∧
    (2 ≤ (filterPrimaryPayslips payslips).length →
      ∃ previous current,
        getPayslipPairForComparison payslips = some (previous, current) ∧
        previous = (getNormalizedPrimaryPayslips payslips).getD
          ((getNormalizedPrimaryPayslips payslips).length - 2) default ∧
        current = (getNormalizedPrimaryPayslips payslips).getD
          ((getNormalizedPrimaryPayslips payslips).length - 1) default ∧
        List.Perm (getNormalizedPrimaryPayslips payslips)
          ((filterPrimaryPayslips payslips).map normalizePayslip) ∧
        normPeriodLE previous current ∧
        (∀ q ∈ getNormalizedPrimaryPayslips payslips, normPeriodLE q current) ∧
        (∀ q ∈ (getNormalizedPrimaryPayslips payslips).dropLast,
          normPeriodLE q previous) ∧
        (runPipeline payslips false narrateLLM).success = true) ∧
    (∀ p ∈ payslips, (p.earnings.map (·.lineCode)).Nodup →
      (isPrimaryPayslip p = true ↔
        ∃ e ∈ p.earnings, e.lineCode = "SALARY" ∧ 0 < e.total)) := by
  have hlen : (getNormalizedPrimaryPayslips payslips).length =
      (filterPrimaryPayslips payslips).length := by
    rw [getNormalizedPrimaryPayslips, sortPayslipsByPeriod, List.length_map,
      List.length_insertionSort]
  refine ⟨?_, ?_, ?_⟩
  · intro h
    have hnone : getPayslipPairForComparison payslips = none := by
      rw [getPayslipPairForComparison]
      exact if_pos (by omega)
    rw [runPipeline, hnone]
  · intro h2
    have hn2 : 2 ≤ (getNormalizedPrimaryPayslips payslips).length := by omega
    have hpair : getPayslipPairForComparison payslips =
        some ((getNormalizedPrimaryPayslips payslips).getD
          ((getNormalizedPrimaryPayslips payslips).length - 2) default,
          (getNormalizedPrimaryPayslips payslips).getD
            ((getNormalizedPrimaryPayslips payslips).length - 1) default) := by
      rw [getPayslipPairForComparison]
      exact if_neg (by omega)
    have hpw : (getNormalizedPrimaryPayslips payslips).Pairwise normPeriodLE := by
      rw [getNormalizedPrimaryPayslips]
      refine List.Pairwise.map normalizePayslip (fun a b hab => ?_)
        (List.sorted_insertionSort periodSortLE (filterPrimaryPayslips payslips))
      exact hab
    have hrefl : ∀ q : NormalizedPayslip, normPeriodLE q q :=
      fun q => Or.inr ⟨rfl, le_refl _⟩
    have hgetrel := List.pairwise_iff_getElem.mp hpw
    refine ⟨_, _, hpair, rfl, rfl, ?_, ?_, ?_, ?_, ?_⟩
    · rw [getNormalizedPrimaryPayslips, sortPayslipsByPeriod]
      exact (List.perm_insertionSort periodSortLE
        (filterPrimaryPayslips payslips)).map normalizePayslip
    · rw [List.getD_eq_getElem _ default (by omega),
        List.getD_eq_getElem _ default (by omega)]
      exact hgetrel _ _ (by omega) (by omega) (by omega)
    · intro q hq
      obtain ⟨i, hi, rfl⟩ := List.mem_iff_getElem.mp hq
      rw [List.getD_eq_getElem _ default (by omega)]
      rcases Nat.lt_or_ge i ((getNormalizedPrimaryPayslips payslips).length - 1)
        with hlt | hge
      · exact hgetrel _ _ hi (by omega) hlt
      · have : i = (getNormalizedPrimaryPayslips payslips).length - 1 := by omega
        subst this
        exact hrefl _
    · intro q hq
      rw [List.dropLast_eq_take] at hq
      obtain ⟨i, hi, heq⟩ := List.mem_iff_getElem.mp hq
      have hi2 : i < (getNormalizedPrimaryPayslips payslips).length - 1 := by
        simpa using hi
      have hi3 : i < (getNormalizedPrimaryPayslips payslips).length := by omega
      have heq2 : (getNormalizedPrimaryPayslips payslips)[i] = q := by
        rw [← heq, List.getElem_take]
      rw [List.getD_eq_getElem _ default (by omega), ← heq2]
      rcases Nat.lt_or_ge i ((getNormalizedPrimaryPayslips payslips).length - 2)
        with hlt | hge
      · exact hgetrel _ _ (by omega) (by omega) hlt
      · have : i = (getNormalizedPrimaryPayslips payslips).length - 2 := by omega
        subst this
        exact hrefl _
    · rw [runPipeline, hpair]
      rfl
  · intro p _ hnd
    rw [isPrimaryPayslip]
    constructor
    · intro hprim
      cases hfind : p.earnings.find? (fun e => e.lineCode = "SALARY") with
      | none => rw [hfind] at hprim; exact absurd hprim (by simp)
      | some s =>
        rw [hfind] at hprim
        refine ⟨s, List.mem_of_find?_eq_some hfind, ?_, by simpa using hprim⟩
        simpa using List.find?_some hfind
    · rintro ⟨e, he, hcode, hpos⟩
      have hsome : (p.earnings.find? (fun x => x.lineCode = "SALARY")).isSome :=
        List.find?_isSome.mpr ⟨e, he, by simpa using hcode⟩
      obtain ⟨s, hs⟩ := Option.isSome_iff_exists.mp hsome
      rw [hs]
      have hscode : s.lineCode = "SALARY" := by simpa using List.find?_some hs
      have := List.inj_on_of_nodup_map hnd he (List.mem_of_find?_eq_some hs)
        (hcode.trans hscode.symm)
      rw [← this]
      simpa using hpos

/-- Witness for C7 at the empty list and at the two demo payslips. -/
theorem runPipeline_pair_selection_witness :
    runPipeline [] false (fun _ => Except.ok ⟨"", none⟩) =
      { success := false
        error := some "Not enough primary payslips to compare (need at least 2)"
        payslips := none
        comparison := none
        facts := none
        explanation := none
        llmUsage := none } ∧
    (runPipeline [demoPrevPayslip, demoCurrPayslip] false
      (fun _ => Except.ok ⟨"", none⟩)).success = true :=
  ⟨(runPipeline_pair_selection [] false (fun _ => Except.ok ⟨"", none⟩)).1
      (of_decide_eq_true (by with_unfolding_all rfl)),
    by
      obtain ⟨-, -, -, -, -, -, -, -, -, hsucc⟩ :=
        (runPipeline_pair_selection [demoPrevPayslip, demoCurrPayslip] false
          (fun _ => Except.ok ⟨"", none⟩)).2.1
          (of_decide_eq_true (by with_unfolding_all rfl))
      exact hsucc⟩

-- ─────────────────────────────────────────────────────────────
-- Claim C1
-- ─────────────────────────────────────────────────────────────

/-- C1 counterexample: with two primary payslips and a narration
collaborator that fails, runPipeline with richer narration requested
returns success false and no explanation, so a narration failure is
surfaced as a pipeline failure instead of falling back to the Simple
Narrator. -/
theorem runPipeline_llm_failure_surfaces :
    (runPipeline [demoPrevPayslip, demoCurrPayslip] true
      (fun _ => Except.error "narration failed")).success = false ∧
    (runPipeline [demoPrevPayslip, demoCurrPayslip] true
      (fun _ => Except.error "narration failed")).error =
        some "narration failed" ∧
    (runPipeline [demoPrevPayslip, demoCurrPayslip] true
      (fun _ => Except.error "narration failed")).explanation = none :=
  ⟨of_decide_eq_true (by with_unfolding_all rfl),
    of_decide_eq_true (by with_unfolding_all rfl),
    of_decide_eq_true (by with_unfolding_all rfl)⟩

/-- C1 (amended): when richer narration is requested and the narration
collaborator fails, runPipeline catches the failure and converts it into
a structured failure result carrying the collaborator message; it does
not fall back to the Simple Narrator. The modelled runPipeline is a
total function, so the failure is never re-raised. -/
theorem runPipeline_llm_failure_amended (payslips : List PayslipHeader)
    (msg : String) (h : (getPayslipPairForComparison payslips).isSome = true) :
    runPipeline payslips true (fun _ => Except.error msg) =
      { success := false
        error := some msg
        payslips := none
        comparison := none
        facts := none
        explanation := none
        llmUsage := none } := by
  rw [runPipeline]
  cases hp : getPayslipPairForComparison payslips with
  | none => rw [hp] at h; simp at h
  | some pair => rfl

/-- Witness for the amended C1 at the two demo payslips. -/
theorem runPipeline_llm_failure_amended_witness :
    (getPayslipPairForComparison [demoPrevPayslip, demoCurrPayslip]).isSome =
      true ∧
    runPipeline [demoPrevPayslip, demoCurrPayslip] true
      (fun _ => Except.error "quota exceeded") =
      { success := false
        error := some "quota exceeded"
        payslips := none
        comparison := none
        facts := none
        explanation := none
        llmUsage := none } :=
  ⟨of_decide_eq_true (by with_unfolding_all rfl),
    runPipeline_llm_failure_amended [demoPrevPayslip, demoCurrPayslip]
      "quota exceeded" (of_decide_eq_true (by with_unfolding_all rfl))⟩

end Payslips
